import Mathlib

/-
Verification of the snake-game simulation core against its specification.
The definitions below are a shallow embedding of the Python sources:
`src/game/snake.py`, `src/game/food.py`, `src/game/game_engine.py` and
`src/game/game_modes.py`.  Machine floats of the source are modelled as
rationals, Python ints as `Int`/`Nat`, and every random draw is passed in
explicitly as an argument (a drawn rational in `[0,1)`, a drawn index, or a
stream of drawn grid cells), so that every definition is executable.
-/

namespace SnakeGame

/-! ## Grid constants (`src/game/constants.py`) -/

def GRID_WIDTH : Int := 800 / 20
def GRID_HEIGHT : Int := 600 / 20

abbrev Pos := Int × Int
abbrev Dir := Int × Int

def UP : Dir := (0, -1)
def DOWN : Dir := (0, 1)
def LEFT : Dir := (-1, 0)
def RIGHT : Dir := (1, 0)

/-- The exact inverse of a direction, `(-d[0], -d[1])` in the source. -/
def invDir (d : Dir) : Dir := (-d.1, -d.2)

inductive GameState where
  | running
  | game_over
  | paused
deriving DecidableEq

/-! ## Snake (`src/game/snake.py`) -/

structure Snake where
  body : List Pos
  direction : Dir
  next_direction : Dir
  grow : Bool
deriving DecidableEq

/-- `Snake.reset`: `initial_length` cells extending left from the grid
center, direction and pending direction `RIGHT`, growth flag cleared. -/
def Snake.reset (initial_length : Nat) : Snake :=
  { body := (List.range initial_length).map
      (fun i => (GRID_WIDTH / 2 - i, GRID_HEIGHT / 2))
    direction := RIGHT
    next_direction := RIGHT
    grow := false }

/-- `Snake.update`: commit `next_direction` into `direction` unless it is the
exact inverse of the current direction, push the new head, and pop the tail
unless the growth flag is set (in which case the flag is cleared).  The
source indexes `body[0]`, which presumes a non-empty body; `headD` supplies
a default that theorems never rely on. -/
def Snake.update (s : Snake) : Snake :=
  let dir := if s.next_direction = invDir s.direction then s.direction
             else s.next_direction
  let head := s.body.headD (0, 0)
  let newHead : Pos := (head.1 + dir.1, head.2 + dir.2)
  if s.grow then
    { s with body := newHead :: s.body, direction := dir, grow := false }
  else
    { s with body := (newHead :: s.body).dropLast, direction := dir }

/-- `Snake.change_direction`: the source records the requested direction
unconditionally (`self.next_direction = new_direction`); there is no guard
here. -/
def Snake.change_direction (s : Snake) (d : Dir) : Snake :=
  { s with next_direction := d }

/-- `Snake.eat_food`: set the (single, boolean) growth flag. -/
def Snake.eat_food (s : Snake) : Snake :=
  { s with grow := true }

/-- `Snake.check_collision`: wall test (skipped when wall pass is allowed)
followed by the self-collision test `head in body[1:]`. -/
def Snake.check_collision (s : Snake) (allow_wall_pass : Bool) : Bool :=
  let head := s.body.headD (0, 0)
  (!allow_wall_pass &&
    (head.1 < 0 || GRID_WIDTH ≤ head.1 || head.2 < 0 || GRID_HEIGHT ≤ head.2))
  || s.body.tail.contains head

/-- `Snake.handle_wall_wrap`: teleport an out-of-bounds head to the opposite
edge on each axis; the boolean reports whether a wrap occurred. -/
def Snake.handle_wall_wrap (s : Snake) : Snake × Bool :=
  let head := s.body.headD (0, 0)
  let nx := if head.1 < 0 then GRID_WIDTH - 1
            else if GRID_WIDTH ≤ head.1 then 0 else head.1
  let ny := if head.2 < 0 then GRID_HEIGHT - 1
            else if GRID_HEIGHT ≤ head.2 then 0 else head.2
  if nx ≠ head.1 ∨ ny ≠ head.2 then
    ({ s with body := (nx, ny) :: s.body.tail }, true)
  else
    (s, false)

/-! ## Food (`src/game/food.py`) -/

inductive FruitType where
  | normal
  | special
  | double_score
  | speed_up
  | speed_down
  | length_double
  | shrink
  | invincible
deriving DecidableEq

/-- The `FRUIT_TYPES` table in declaration order with its probabilities. -/
def FRUIT_TABLE : List (FruitType × ℚ) :=
  [(.normal, 70/100), (.special, 15/100), (.double_score, 5/100),
   (.speed_up, 3/100), (.speed_down, 3/100), (.length_double, 2/100),
   (.shrink, 15/1000), (.invincible, 5/1000)]

/-- The loop body of `Food._generate_fruit_type`: accumulate probabilities in
declaration order and select the first type with `rand <= cumulative_prob`. -/
def generateFruitTypeAux (r : ℚ) : List (FruitType × ℚ) → ℚ → Option FruitType
  | [], _ => none
  | (t, p) :: rest, acc =>
    if r ≤ acc + p then some t else generateFruitTypeAux r rest (acc + p)

/-- `Food._generate_fruit_type` on a drawn `r = random.random()`.  The source
leaves `fruit_type` unchanged if the loop never breaks; `none` models that
(never reached for `r < 1`). -/
def generateFruitType (r : ℚ) : Option FruitType :=
  generateFruitTypeAux r FRUIT_TABLE 0

/-- `Food.respawn`'s retry loop, over an explicit stream of drawn cells:
the first drawn cell absent from both the snake body and the hazard cells is
selected. -/
def respawnPosition : List Pos → List Pos → List Pos → Option Pos
  | [], _, _ => none
  | c :: rest, body, hazards =>
    if c ∉ body ∧ c ∉ hazards then some c
    else respawnPosition rest body hazards

/-- The cumulative-probability table of the spec, in declaration order:
each entry carries the cumulative sum of the probabilities up to and
including that category. -/
def specCumTable : List (FruitType × ℚ) :=
  [(.normal, 70/100), (.special, 85/100), (.double_score, 90/100),
   (.speed_up, 93/100), (.speed_down, 96/100), (.length_double, 98/100),
   (.shrink, 995/1000), (.invincible, 1)]

/-- The spec's category selection, stated in its own words: walk the
cumulative table in order and select the first category whose cumulative
sum is `≥ r`. -/
def specFirstGE (r : ℚ) : List (FruitType × ℚ) → Option FruitType
  | [] => none
  | (t, c) :: rest => if r ≤ c then some t else specFirstGE r rest

/-- The spec's category selection applied to the spec's cumulative table. -/
def specSelectCategory (r : ℚ) : Option FruitType :=
  specFirstGE r specCumTable

/-- `Food.get_value`. -/
def FruitType.get_value : FruitType → Int
  | .special => 20
  | .double_score => 30
  | .length_double => 30
  | .invincible => 30
  | .speed_up => 15
  | .speed_down => 15
  | .shrink => 5
  | .normal => 10

/-- `Food.get_growth`. -/
def FruitType.get_growth : FruitType → Nat
  | .special => 2
  | .length_double => 0
  | _ => 1

/-! ## Engine (`src/game/game_engine.py`) -/

/-- Python's `int()` applied to a nonnegative-or-negative rational:
truncation toward zero. -/
def pyInt (q : ℚ) : Int :=
  if 0 ≤ q then ⌊q⌋ else ⌈q⌉

/-- One pass of the shrink loop: `max(1, len // 3)` iterations, each popping
the tail only while the body is longer than 3 (lines 708-711 of
`game_engine.py`). -/
def shrinkLoop : Nat → List Pos → List Pos
  | 0, b => b
  | n + 1, b => shrinkLoop n (if 3 < b.length then b.dropLast else b)

/-- The `shrink` branch of `GameEngine._apply_fruit_effect`: only acts when
the body is longer than 3 cells. -/
def applyShrink (b : List Pos) : List Pos :=
  if 3 < b.length then shrinkLoop (max 1 (b.length / 3)) b else b

/-- The engine state fields the verified claims touch. -/
structure Engine where
  state : GameState
  score : Int
  next_score_multiplier : ℚ
  invincible_timer : Int
  current_fps : Int
  snake : Snake
  food_type : FruitType
  food_position : Pos
deriving DecidableEq

/-- `GameEngine._apply_fruit_effect` on the consumed fruit's effect record
(the effect payloads are exactly the ones `_generate_fruit_type` builds). -/
def applyFruitEffect (e : Engine) (t : FruitType) : Engine :=
  match t with
  | .double_score => { e with next_score_multiplier := 2 }
  | .speed_up => { e with current_fps := min 50 (e.current_fps + 5) }
  | .speed_down => { e with current_fps := max 5 (e.current_fps - 3) }
  | .length_double =>
      { e with snake := Snake.eat_food^[e.snake.body.length] e.snake }
  | .shrink => { e with snake := { e.snake with body := applyShrink e.snake.body } }
  | .invincible => { e with invincible_timer := 180 }
  | _ => e

/-- The food-consumption block of `GameEngine.update` (lines 180-202): grow
by `get_growth` calls to `eat_food`, consume `next_score_multiplier` and
reset it to 1.0, add `int(food_value * mode_multiplier * fruit_multiplier)`
to the score, then apply the fruit effect.  The mode multiplier is passed
in; the subsequent random food respawn is irrelevant to the claims and
omitted. -/
def consumeFood (e : Engine) (mode_multiplier : ℚ) : Engine :=
  let foodType := e.food_type
  let snake1 := Snake.eat_food^[foodType.get_growth] e.snake
  let food_value := foodType.get_value
  let fruit_multiplier := e.next_score_multiplier
  let e1 := { e with snake := snake1, next_score_multiplier := 1 }
  let final_score := pyInt ((food_value : ℚ) * mode_multiplier * fruit_multiplier)
  let e2 := { e1 with score := e1.score + final_score }
  applyFruitEffect e2 foodType

/-- `GameEngine._update_fruit_effects`: decrement the invincibility
countdown while it is positive. -/
def updateFruitEffects (e : Engine) : Engine :=
  if 0 < e.invincible_timer then
    { e with invincible_timer := e.invincible_timer - 1 }
  else e

/-- The collision-resolution tail of `GameEngine.update` (lines 232-250):
Zen mode first wraps the head through walls and then checks only
self-collision; every other mode runs the full collision check.  In both
branches a collision only ends the game when `invincible_timer <= 0` at the
moment of the check. -/
def collisionResolve (e : Engine) (is_zen : Bool) : Engine :=
  if is_zen then
    let e4 := { e with snake := e.snake.handle_wall_wrap.1 }
    if e4.snake.check_collision true = true ∧ e4.invincible_timer ≤ 0
    then { e4 with state := GameState.game_over } else e4
  else
    if e.snake.check_collision false = true ∧ e.invincible_timer ≤ 0
    then { e with state := GameState.game_over } else e

/-- The per-tick core of `GameEngine.update` in source order: snake motion,
invincibility countdown, food consumption, then the mode-dependent
collision resolution consulting `invincible_timer` (Zen wraps the head and
skips the wall test). The mode's own `update` precedes this block in the
source and is parameterized out via `mode_multiplier`; the post-consumption
food respawn is random and omitted. -/
def engineTick (e : Engine) (mode_multiplier : ℚ) (is_zen : Bool) : Engine :=
  if e.state = GameState.running then
    let e1 := { e with snake := e.snake.update }
    let e2 := updateFruitEffects e1
    let e3 := if e2.snake.body.headD (0, 0) = e2.food_position
              then consumeFood e2 mode_multiplier else e2
    collisionResolve e3 is_zen
  else e

/-! ## Time-attack mode (`src/game/game_modes.py`, `TimeAttackMode`) -/

structure TimeAttackData where
  rush_mode : Bool
  time_bonus_triggered : Bool
  combo_count : Int
deriving DecidableEq

/-- The rush block of `TimeAttackMode.update` (lines 116-119): on a tick
with `remaining <= 30` and the rush flag still clear, set the flag and set
`current_fps = min(25, current_fps + 5)`.  Returns the updated mode data and
fps. -/
def timeAttackRushStep (d : TimeAttackData) (fps : Int) (remaining : ℚ) :
    TimeAttackData × Int :=
  if remaining ≤ 30 ∧ d.rush_mode = false then
    ({ d with rush_mode := true }, min 25 (fps + 5))
  else (d, fps)

/-- `TimeAttackMode.get_score_multiplier`. -/
def timeAttackMultiplier (d : TimeAttackData) : ℚ :=
  let b1 : ℚ := 3/2
  let b2 := if d.rush_mode then b1 + 1/2 else b1
  let b3 := if d.time_bonus_triggered then b2 * 2 else b2
  if 10 ≤ d.combo_count then b3 + 1
  else if 5 ≤ d.combo_count then b3 + 1/2
  else if 3 ≤ d.combo_count then b3 + 1/5
  else b3

/-! ## Survival mode (`src/game/game_modes.py`, `SurvivalMode`) -/

inductive HazardType where
  | poison_zone
  | speed_trap
deriving DecidableEq

structure Hazard where
  type : HazardType
  position : Pos
  radius : Int
  duration : Int
deriving DecidableEq

/-- `SurvivalMode._add_environmental_hazard`: `random.choice` draws
uniformly from the three-element list `['poison_zone', 'speed_trap',
'shrinking_boundary']` (modelled by the drawn index `choice : Fin 3` in that
order); only the first two branches append a hazard, and nothing happens
below survival level 3.  The drawn hazard centers are passed in. -/
def addEnvironmentalHazard (level fps : Int) (choice : Fin 3) (pz sp : Pos) :
    Option Hazard :=
  if 3 ≤ level then
    match choice with
    | 0 => some ⟨.poison_zone, pz, 3, 15 * fps⟩
    | 1 => some ⟨.speed_trap, sp, 2, 20 * fps⟩
    | 2 => none
  else none

/-- The hazard-timer block of `SurvivalMode.update` (lines 222-228):
increment the timer and, once it reaches `max(300, 600 - level*30)`, reset
it and run `_add_environmental_hazard`.  Returns the new timer value and
the hazard appended this tick, if any. -/
def survivalHazardTick (hazard_timer level fps : Int) (choice : Fin 3)
    (pz sp : Pos) : Int × Option Hazard :=
  let t := hazard_timer + 1
  let interval := max 300 (600 - level * 30)
  if interval ≤ t then (0, addEnvironmentalHazard level fps choice pz sp)
  else (t, none)

/-! ## Perfection mode (`src/game/game_modes.py`, `PerfectionMode`) -/

structure PerfectionData where
  perfect_streak : Int
  total_resets : Int
  best_streak : Int
  perfection_bonus : ℚ
  last_score : Int
deriving DecidableEq

/-- `PerfectionMode.start`: `mode_data.clear()` followed by the four
initializations; a cleared `last_score` reads back as 0 via
`mode_data.get('last_score', 0)`. -/
def perfectionStart : PerfectionData :=
  { perfect_streak := 0, total_resets := 0, best_streak := 0,
    perfection_bonus := 1, last_score := 0 }

/-- The engine state `PerfectionMode` interacts with. -/
structure PerfState where
  mode : PerfectionData
  state : GameState
  score : Int
  current_fps : Int
  snake : Snake
deriving DecidableEq

/-- `GameEngine.restart_game` as invoked from Perfection mode: snake reset,
score 0, state running, fps back to the initial value, and
`start_current_mode`, which re-runs `PerfectionMode.start` and therefore
clears `mode_data` (the food respawn is random and omitted). -/
def restartGamePerf (_s : PerfState) (initial_fps : Int) (initial_length : Nat) :
    PerfState :=
  { mode := perfectionStart, state := GameState.running, score := 0,
    current_fps := initial_fps, snake := Snake.reset initial_length }

/-- `PerfectionMode.update`: streak bookkeeping on a score increase, then
the collision branch — when the engine reports `GAME_OVER` and the streak is
positive, bump `total_resets`, clear the streak and bonus, and call
`restart_game` (whose mode restart clears the counters again). -/
def perfectionUpdate (s : PerfState) (initial_fps : Int) (initial_length : Nat) :
    PerfState :=
  let m := s.mode
  let m1 :=
    if m.last_score < s.score then
      let streak := m.perfect_streak + 1
      let best := if m.best_streak < streak then streak else m.best_streak
      let bonus := if streak % 10 = 0 then m.perfection_bonus + 1/10
                   else m.perfection_bonus
      { m with perfect_streak := streak, last_score := s.score,
               best_streak := best, perfection_bonus := bonus }
    else m
  let s1 : PerfState := { s with mode := m1 }
  if s1.state = GameState.game_over then
    if 0 < s1.mode.perfect_streak then
      let m2 := { s1.mode with
                  total_resets := s1.mode.total_resets + 1,
                  perfect_streak := 0, perfection_bonus := 1 }
      restartGamePerf { s1 with mode := m2 } initial_fps initial_length
    else s1
  else s1

/-! ## Concrete states used by counterexamples and witnesses -/

/-- A snake in the middle of the grid heading right. -/
def snakeCE : Snake :=
  { body := [(20, 15), (19, 15), (18, 15)], direction := RIGHT,
    next_direction := RIGHT, grow := false }

/-- An engine whose food is a DoubleScore fruit sitting under the snake's
head. -/
def engineCE : Engine :=
  { state := GameState.running, score := 0, next_score_multiplier := 1,
    invincible_timer := 0, current_fps := 10, snake := snakeCE,
    food_type := FruitType.double_score, food_position := (20, 15) }

/-- An engine one tick from a wall collision with one tick of invincibility
left. -/
def engineWall : Engine :=
  { state := GameState.running, score := 0, next_score_multiplier := 1,
    invincible_timer := 1, current_fps := 10,
    snake := { body := [(39, 15), (38, 15), (37, 15)], direction := RIGHT,
               next_direction := RIGHT, grow := false },
    food_type := FruitType.normal, food_position := (5, 5) }

/-- An engine with a 7-segment snake, used to exercise the Shrink effect. -/
def engineShrink : Engine :=
  { state := GameState.running, score := 0, next_score_multiplier := 1,
    invincible_timer := 0, current_fps := 10,
    snake := { body := [(20, 15), (19, 15), (18, 15), (17, 15), (16, 15),
                        (15, 15), (14, 15)],
               direction := RIGHT, next_direction := RIGHT, grow := false },
    food_type := FruitType.shrink, food_position := (5, 5) }

/-- A Perfection-mode state immediately after a collision, with a positive
streak and a nonzero best streak on record. -/
def perfCE : PerfState :=
  { mode := { perfect_streak := 1, total_resets := 0, best_streak := 5,
              perfection_bonus := 1, last_score := 10 },
    state := GameState.game_over, score := 10, current_fps := 10,
    snake := snakeCE }

/-! ## Helper lemmas -/

theorem eatFood_iterate_body (s : Snake) (n : Nat) :
    (Snake.eat_food^[n] s).body = s.body := by
  induction n with
  | zero => rfl
  | succ n ih => rw [Function.iterate_succ_apply', Snake.eat_food, ih]

theorem eatFood_iterate_grow (s : Snake) (n : Nat) (hn : 1 ≤ n) :
    (Snake.eat_food^[n] s).grow = true := by
  obtain ⟨m, rfl⟩ : ∃ m, n = m + 1 := ⟨n - 1, by omega⟩
  rw [Function.iterate_succ_apply', Snake.eat_food]

theorem snake_update_length (s : Snake) :
    s.update.body.length =
      if s.grow then s.body.length + 1 else s.body.length := by
  unfold Snake.update
  by_cases h : s.grow
  · simp [h]
  · simp [h, List.length_dropLast]

theorem snake_update_direction (s : Snake) :
    s.update.direction =
      if s.next_direction = invDir s.direction then s.direction
      else s.next_direction := by
  unfold Snake.update
  by_cases h : s.grow <;> simp [h]

/-! ## Claim C4 -/

/-- Claim C4 counterexample: `change_direction` with the exact inverse of
the current direction is not a no-op — the pending direction does change to
the requested inverse direction. -/
theorem C4_counterexample :
    LEFT = invDir snakeCE.direction ∧
    (snakeCE.change_direction LEFT).next_direction = LEFT ∧
    (snakeCE.change_direction LEFT).next_direction ≠ snakeCE.next_direction := by
  decide

/-- Claim C4, amended: `change_direction` unconditionally records the
requested direction as the pending direction (even when it is the exact
inverse of the current one) and changes nothing else; the reversal guard is
applied only at commit time, where `update` keeps the current direction
whenever the pending direction is its exact inverse. -/
theorem C4_change_direction_records (s : Snake) (d : Dir)
    (h : s.next_direction = invDir s.direction) :
    ((s.change_direction d).next_direction = d ∧
     (s.change_direction d).direction = s.direction ∧
     (s.change_direction d).body = s.body) ∧
    s.update.direction = s.direction := by
  exact ⟨⟨rfl, rfl, rfl⟩, by rw [snake_update_direction, if_pos h]⟩

/-- Witness for C4: the amended theorem applied to a concrete snake whose
pending direction is the inverse of its current one. -/
theorem C4_witness :
    ({ snakeCE with next_direction := LEFT }.next_direction
        = invDir { snakeCE with next_direction := LEFT }.direction) ∧
    ((({ snakeCE with next_direction := LEFT }.change_direction UP).next_direction = UP ∧
      ({ snakeCE with next_direction := LEFT }.change_direction UP).direction
        = { snakeCE with next_direction := LEFT }.direction ∧
      ({ snakeCE with next_direction := LEFT }.change_direction UP).body
        = { snakeCE with next_direction := LEFT }.body) ∧
     { snakeCE with next_direction := LEFT }.update.direction
        = { snakeCE with next_direction := LEFT }.direction) :=
  ⟨by decide, C4_change_direction_records _ UP (by decide)⟩

/-! ## Claim C5 -/

/-- Claim C5: one `update` changes the body length by at most one, and by
exactly one precisely when the growth flag was set immediately before; any
number `n ≥ 1` of `eat_food` calls between two updates still grows the body
by exactly one segment. -/
theorem C5_single_growth_per_advance (s : Snake) (_h : s.body ≠ [])
    (n : Nat) (hn : 1 ≤ n) :
    (s.update.body.length =
      if s.grow then s.body.length + 1 else s.body.length) ∧
    (Snake.eat_food^[n] s).update.body.length = s.body.length + 1 := by
  refine ⟨snake_update_length s, ?_⟩
  rw [snake_update_length, eatFood_iterate_grow s n hn, eatFood_iterate_body]
  simp

/-- Witness for C5 at a concrete snake and `n = 3`. -/
theorem C5_witness :
    (snakeCE.body ≠ [] ∧ 1 ≤ 3) ∧
    ((snakeCE.update.body.length =
        if snakeCE.grow then snakeCE.body.length + 1 else snakeCE.body.length) ∧
     (Snake.eat_food^[3] snakeCE).update.body.length = snakeCE.body.length + 1) :=
  ⟨⟨by decide, by decide⟩, C5_single_growth_per_advance snakeCE (by decide) 3 (by decide)⟩

/-! ## Claim C6 -/

/-- Claim C6: for any snake whose current direction is a genuine direction
(nonzero, as all four direction constants are), the effective direction
after `update` is never the exact inverse of the effective direction before
it. -/
theorem C6_never_reverses (s : Snake) (h : s.direction ≠ (0, 0)) :
    s.update.direction ≠ invDir s.direction := by
  rw [snake_update_direction]
  by_cases hc : s.next_direction = invDir s.direction
  · rw [if_pos hc]
    intro heq
    apply h
    have h1 := congrArg Prod.fst heq
    have h2 := congrArg Prod.snd heq
    simp only [invDir] at h1 h2
    have hx : s.direction.1 = 0 := by omega
    have hy : s.direction.2 = 0 := by omega
    exact Prod.ext hx hy
  · rw [if_neg hc]
    exact hc

/-- Witness for C6 at a concrete snake trying to reverse. -/
theorem C6_witness :
    ({ snakeCE with next_direction := LEFT }.direction ≠ (0, 0)) ∧
    { snakeCE with next_direction := LEFT }.update.direction
      ≠ invDir { snakeCE with next_direction := LEFT }.direction :=
  ⟨by decide, C6_never_reverses _ (by decide)⟩

/-! ## Claim C10 -/

theorem shrinkLoop_length (n : Nat) (b : List Pos) :
    (shrinkLoop n b).length = b.length - min n (b.length - 3) := by
  induction n generalizing b with
  | zero => simp [shrinkLoop]
  | succ n ih =>
    unfold shrinkLoop
    by_cases h : 3 < b.length
    · rw [if_pos h, ih, List.length_dropLast]
      omega
    · rw [if_neg h, ih]
      omega

/-- Claim C10: the Shrink fruit effect leaves a body of length at most 3
unchanged, otherwise removes `max(1, len / 3)` tail segments stopping early
at length 3, so a length of at least 3 is preserved. -/
theorem C10_shrink_preserves_min_length (e : Engine)
    (h3 : 3 ≤ e.snake.body.length) :
    (applyFruitEffect e FruitType.shrink).snake.body = applyShrink e.snake.body ∧
    (e.snake.body.length ≤ 3 → applyShrink e.snake.body = e.snake.body) ∧
    (3 < e.snake.body.length →
      (applyShrink e.snake.body).length =
        max 3 (e.snake.body.length - max 1 (e.snake.body.length / 3))) ∧
    3 ≤ (applyFruitEffect e FruitType.shrink).snake.body.length := by
  refine ⟨rfl, ?_, ?_, ?_⟩
  · intro hle
    unfold applyShrink
    rw [if_neg (by omega)]
  · intro hlt
    unfold applyShrink
    rw [if_pos hlt, shrinkLoop_length]
    omega
  · show 3 ≤ (applyShrink e.snake.body).length
    unfold applyShrink
    by_cases hlt : 3 < e.snake.body.length
    · rw [if_pos hlt, shrinkLoop_length]
      omega
    · rw [if_neg hlt]
      omega

/-- Witness for C10 at a concrete 7-segment snake. -/
theorem C10_witness :
    (3 ≤ engineShrink.snake.body.length) ∧
    ((applyFruitEffect engineShrink FruitType.shrink).snake.body
        = applyShrink engineShrink.snake.body ∧
     (engineShrink.snake.body.length ≤ 3 →
        applyShrink engineShrink.snake.body = engineShrink.snake.body) ∧
     (3 < engineShrink.snake.body.length →
        (applyShrink engineShrink.snake.body).length =
          max 3 (engineShrink.snake.body.length
            - max 1 (engineShrink.snake.body.length / 3))) ∧
     3 ≤ (applyFruitEffect engineShrink FruitType.shrink).snake.body.length) :=
  ⟨by decide, C10_shrink_preserves_min_length engineShrink (by decide)⟩

/-! ## Claim C1 -/

theorem fruit_value_lower (t : FruitType) : (5 : Int) ≤ t.get_value := by
  cases t <;> decide

theorem applyFruitEffect_score (e : Engine) (t : FruitType) :
    (applyFruitEffect e t).score = e.score := by
  cases t <;> rfl

theorem applyFruitEffect_multiplier (e : Engine) (t : FruitType) :
    (applyFruitEffect e t).next_score_multiplier =
      if t = FruitType.double_score then 2 else e.next_score_multiplier := by
  cases t <;> rfl

theorem applyFruitEffect_state (e : Engine) (t : FruitType) :
    (applyFruitEffect e t).state = e.state := by
  cases t <;> rfl

theorem applyFruitEffect_timer (e : Engine) (t : FruitType) :
    (applyFruitEffect e t).invincible_timer =
      if t = FruitType.invincible then 180 else e.invincible_timer := by
  cases t <;> rfl

/-- Claim C1 counterexample: consuming a DoubleScore fruit leaves
`next_score_multiplier` at 2.0, not 1.0, once the consumption (including
`_apply_fruit_effect`) has resolved. -/
theorem C1_counterexample :
    engineCE.food_type = FruitType.double_score ∧
    engineCE.next_score_multiplier = 1 ∧
    (consumeFood engineCE 1).next_score_multiplier = 2 ∧
    (consumeFood engineCE 1).next_score_multiplier ≠ 1 := by
  have h2 : (consumeFood engineCE 1).next_score_multiplier = 2 := rfl
  exact ⟨rfl, rfl, h2, by rw [h2]; norm_num⟩

/-- Claim C1, amended: every consumption adds exactly
`floor(foodBaseValue * modeMultiplier * fruitMultiplier)` to the score, the
increment is nonnegative (for the nonnegative multipliers of reachable
states), and after the consumption resolves `next_score_multiplier` is 1.0
— except that consuming a DoubleScore fruit re-arms it to 2.0 for the next
consumption, so each fruit multiplier still applies to exactly one food
event. -/
theorem C1_score_composition (e : Engine) (mode_mul : ℚ)
    (hm : 0 ≤ mode_mul) (hf : 0 ≤ e.next_score_multiplier) :
    (consumeFood e mode_mul).score =
      e.score + ⌊(e.food_type.get_value : ℚ) * mode_mul * e.next_score_multiplier⌋ ∧
    0 ≤ ⌊(e.food_type.get_value : ℚ) * mode_mul * e.next_score_multiplier⌋ ∧
    e.score ≤ (consumeFood e mode_mul).score ∧
    (consumeFood e mode_mul).next_score_multiplier =
      (if e.food_type = FruitType.double_score then 2 else 1) := by
  have hv : (0 : ℚ) ≤ (e.food_type.get_value : ℚ) := by
    have h5 := fruit_value_lower e.food_type
    have : (0 : Int) ≤ e.food_type.get_value := by omega
    exact_mod_cast this
  have hprod : 0 ≤ (e.food_type.get_value : ℚ) * mode_mul * e.next_score_multiplier :=
    mul_nonneg (mul_nonneg hv hm) hf
  have hfloor : 0 ≤ ⌊(e.food_type.get_value : ℚ) * mode_mul * e.next_score_multiplier⌋ :=
    Int.floor_nonneg.mpr hprod
  have hscore : (consumeFood e mode_mul).score =
      e.score + ⌊(e.food_type.get_value : ℚ) * mode_mul * e.next_score_multiplier⌋ := by
    unfold consumeFood
    rw [applyFruitEffect_score]
    unfold pyInt
    rw [if_pos hprod]
  refine ⟨hscore, hfloor, by omega, ?_⟩
  unfold consumeFood
  rw [applyFruitEffect_multiplier]

/-- Witness for C1: the amended theorem applied to the concrete engine
`engineCE` with mode multiplier 3/2. -/
theorem C1_witness :
    ((0 : ℚ) ≤ 3/2 ∧ 0 ≤ engineCE.next_score_multiplier) ∧
    ((consumeFood engineCE (3/2)).score =
        engineCE.score +
          ⌊(engineCE.food_type.get_value : ℚ) * (3/2) * engineCE.next_score_multiplier⌋ ∧
     0 ≤ ⌊(engineCE.food_type.get_value : ℚ) * (3/2) * engineCE.next_score_multiplier⌋ ∧
     engineCE.score ≤ (consumeFood engineCE (3/2)).score ∧
     (consumeFood engineCE (3/2)).next_score_multiplier =
       (if engineCE.food_type = FruitType.double_score then 2 else 1)) :=
  ⟨⟨by norm_num, by norm_num [engineCE]⟩,
    C1_score_composition engineCE (3/2) (by norm_num) (by norm_num [engineCE])⟩

/-! ## Claim C2 -/

/-- Claim C2 (code bug): at the concrete post-collision Perfection state
`perfCE` (streak 1, `total_resets` 0, `best_streak` 5), the collision
branch of `PerfectionMode.update` does restart the run, but the restart
re-runs `PerfectionMode.start`, which clears `mode_data`: afterwards
`total_resets` is 0 (not incremented to 1) and `best_streak` is 0 (not
preserved at 5) — contradicting the source's own comment that the restart
keeps the mode data. -/
theorem C2_restart_wipes_counters :
    perfCE.state = GameState.game_over ∧
    perfCE.mode.perfect_streak = 1 ∧
    perfCE.mode.total_resets = 0 ∧
    perfCE.mode.best_streak = 5 ∧
    (perfectionUpdate perfCE 10 3).state = GameState.running ∧
    (perfectionUpdate perfCE 10 3).score = 0 ∧
    (perfectionUpdate perfCE 10 3).snake = Snake.reset 3 ∧
    (perfectionUpdate perfCE 10 3).mode.total_resets = 0 ∧
    (perfectionUpdate perfCE 10 3).mode.best_streak = 0 ∧
    (perfectionUpdate perfCE 10 3).mode.perfect_streak = 0 := by
  decide

/-! ## Claim C7 -/

/-- Claim C7 counterexample: on the first rush tick with `current_fps = 25`
the rush flag is set but the fps is capped at `min(25, fps + 5) = 25` — it
does not increase by 5. -/
theorem C7_counterexample :
    (25 : ℚ) ≤ 30 ∧
    (timeAttackRushStep ⟨false, false, 0⟩ 25 25).1.rush_mode = true ∧
    (timeAttackRushStep ⟨false, false, 0⟩ 25 25).2 = 25 ∧
    (timeAttackRushStep ⟨false, false, 0⟩ 25 25).2 ≠ 25 + 5 := by
  refine ⟨by norm_num, ?_, ?_, ?_⟩ <;> decide

/-- Claim C7, amended: on the first update tick with `remainingTime ≤ 30`
the rush flag is set, the fps becomes `min(25, fps + 5)` — an increase of
exactly 5 only while `fps ≤ 20` — and the flag being set makes every later
rush check a no-op; while rush is active (and frenzy is not) the score
multiplier is exactly 0.5 larger than without rush. -/
theorem C7_rush_transition (d : TimeAttackData) (fps fps2 : Int)
    (remaining r2 : ℚ) (h1 : d.rush_mode = false) (h2 : remaining ≤ 30) :
    (timeAttackRushStep d fps remaining).1.rush_mode = true ∧
    (timeAttackRushStep d fps remaining).2 = min 25 (fps + 5) ∧
    (fps ≤ 20 → (timeAttackRushStep d fps remaining).2 = fps + 5) ∧
    (timeAttackRushStep (timeAttackRushStep d fps remaining).1 fps2 r2).2 = fps2 ∧
    (∀ d' : TimeAttackData, d'.rush_mode = true → d'.time_bonus_triggered = false →
      timeAttackMultiplier d' = timeAttackMultiplier { d' with rush_mode := false } + 1/2) := by
  have hstep : timeAttackRushStep d fps remaining =
      ({ d with rush_mode := true }, min 25 (fps + 5)) := by
    unfold timeAttackRushStep
    rw [if_pos ⟨h2, h1⟩]
  refine ⟨by rw [hstep], by rw [hstep], ?_, ?_, ?_⟩
  · intro hle
    rw [hstep]
    simp only
    omega
  · rw [hstep]
    unfold timeAttackRushStep
    simp
  · intro d' hr hf
    unfold timeAttackMultiplier
    simp only [hr, hf, if_true, if_false]
    split_ifs <;> first | contradiction | ring

/-- Witness for C7: the amended theorem at a fresh time-attack state with
`fps = 15` and `remainingTime = 25`. -/
theorem C7_witness :
    ((⟨false, false, 0⟩ : TimeAttackData).rush_mode = false ∧ (25 : ℚ) ≤ 30) ∧
    ((timeAttackRushStep ⟨false, false, 0⟩ 15 25).1.rush_mode = true ∧
     (timeAttackRushStep ⟨false, false, 0⟩ 15 25).2 = min 25 (15 + 5) ∧
     ((15 : Int) ≤ 20 → (timeAttackRushStep ⟨false, false, 0⟩ 15 25).2 = 15 + 5) ∧
     (timeAttackRushStep (timeAttackRushStep ⟨false, false, 0⟩ 15 25).1 18 20).2 = 18 ∧
     (∀ d' : TimeAttackData, d'.rush_mode = true → d'.time_bonus_triggered = false →
       timeAttackMultiplier d' = timeAttackMultiplier { d' with rush_mode := false } + 1/2)) :=
  ⟨⟨rfl, by norm_num⟩,
    C7_rush_transition ⟨false, false, 0⟩ 15 18 25 20 rfl (by norm_num)⟩

/-! ## Claim C8 -/

/-- Claim C8 counterexample: at survival level 3 with `fps = 10`, the
hazard timer fires at `max(300, 600 - 3*30) = 510` ticks, yet when the
uniform three-way draw lands on the third list entry
(`'shrinking_boundary'`) no hazard at all is spawned — the claim's "exactly
one hazard, each type with probability 1/2" fails. -/
theorem C8_counterexample :
    (509 : Int) + 1 = max 300 (600 - 3 * 30) ∧
    (survivalHazardTick 509 3 10 2 (10, 10) (10, 10)).1 = 0 ∧
    (survivalHazardTick 509 3 10 2 (10, 10) (10, 10)).2 = none := by
  decide

/-- Claim C8, amended: when the hazard timer reaches
`max(300, 600 - level*30)` with `survivalLevel ≥ 3`, the timer resets and
one uniform draw over the three entries `poison_zone`, `speed_trap`,
`shrinking_boundary` decides the outcome: the first spawns a PoisonZone of
radius 3 and duration `15*fps`, the second a SpeedTrap of radius 2 and
duration `20*fps`, and the third spawns nothing; so exactly 2 of the 3
equiprobable draws spawn a hazard (each type has probability 1/3, not
1/2). -/
theorem C8_hazard_spawn (timer level fps : Int) (choice : Fin 3) (pz sp : Pos)
    (hfire : max 300 (600 - level * 30) ≤ timer + 1) (hlevel : 3 ≤ level) :
    (survivalHazardTick timer level fps choice pz sp).1 = 0 ∧
    (survivalHazardTick timer level fps choice pz sp).2 =
      (if choice = 0 then some ⟨HazardType.poison_zone, pz, 3, 15 * fps⟩
       else if choice = 1 then some ⟨HazardType.speed_trap, sp, 2, 20 * fps⟩
       else none) ∧
    (Finset.univ.filter (fun c : Fin 3 =>
        (addEnvironmentalHazard level fps c pz sp).isSome)).card = 2 := by
  have htick : survivalHazardTick timer level fps choice pz sp =
      (0, addEnvironmentalHazard level fps choice pz sp) := by
    unfold survivalHazardTick
    rw [if_pos hfire]
  refine ⟨by rw [htick], ?_, ?_⟩
  · rw [htick]
    unfold addEnvironmentalHazard
    rw [if_pos hlevel]
    fin_cases choice <;> rfl
  · have hset : (Finset.univ.filter (fun c : Fin 3 =>
        (addEnvironmentalHazard level fps c pz sp).isSome)) = {0, 1} := by
      ext c
      fin_cases c <;>
        simp [addEnvironmentalHazard, if_pos hlevel]
    rw [hset]
    rfl

/-- Witness for C8 at level 3, `fps = 10`, timer one tick below the 510
threshold, and the draw landing on `poison_zone`. -/
theorem C8_witness :
    (max 300 (600 - 3 * 30) ≤ (509 : Int) + 1 ∧ (3 : Int) ≤ 3) ∧
    ((survivalHazardTick 509 3 10 0 (7, 7) (9, 9)).1 = 0 ∧
     (survivalHazardTick 509 3 10 0 (7, 7) (9, 9)).2 =
       (if (0 : Fin 3) = 0 then some ⟨HazardType.poison_zone, (7, 7), 3, 15 * 10⟩
        else if (0 : Fin 3) = 1 then some ⟨HazardType.speed_trap, (9, 9), 2, 20 * 10⟩
        else none) ∧
     (Finset.univ.filter (fun c : Fin 3 =>
         (addEnvironmentalHazard 3 10 c (7, 7) (9, 9)).isSome)).card = 2) :=
  ⟨⟨by decide, by decide⟩,
    C8_hazard_spawn 509 3 10 0 (7, 7) (9, 9) (by decide) (by decide)⟩

/-! ## Claim C3 -/

/-- Claim C3: a successful `respawn` never selects a cell occupied by the
snake body or a hazard cell; for every draw `r ∈ [0,1)` the cumulative walk
of `_generate_fruit_type` selects exactly the first category of the spec's
cumulative table (declaration order, first cumulative sum `≥ r`) and always
selects some category; and the category probabilities sum exactly to 1. -/
theorem C3_respawn_and_category (draws body hazards : List Pos) (p : Pos)
    (r : ℚ) (hresp : respawnPosition draws body hazards = some p)
    (_h0 : 0 ≤ r) (h1 : r < 1) :
    (p ∉ body ∧ p ∉ hazards) ∧
    generateFruitType r = specSelectCategory r ∧
    (generateFruitType r).isSome = true ∧
    (FRUIT_TABLE.map Prod.snd).sum = 1 := by
  refine ⟨?_, ?_, ?_, by norm_num [FRUIT_TABLE]⟩
  · clear h1
    induction draws with
    | nil => simp [respawnPosition] at hresp
    | cons c rest ih =>
      unfold respawnPosition at hresp
      split_ifs at hresp with hc
      · cases hresp
        exact hc
      · exact ih hresp
  · unfold generateFruitType specSelectCategory FRUIT_TABLE specCumTable
    simp only [generateFruitTypeAux, specFirstGE]
    norm_num
  · unfold generateFruitType FRUIT_TABLE
    simp only [generateFruitTypeAux]
    split_ifs <;> first | rfl | (exfalso; linarith)

/-- Witness for C3: a respawn stream whose first draw hits the snake body,
and the concrete draw `r = 4/5` (selecting `speed_up`). -/
theorem C3_witness :
    (respawnPosition [(20, 15), (3, 4)] snakeCE.body [(9, 9)] = some (3, 4) ∧
     (0 : ℚ) ≤ 4/5 ∧ (4/5 : ℚ) < 1) ∧
    (((3, 4) ∉ snakeCE.body ∧ (3, 4) ∉ [((9 : Int), (9 : Int))]) ∧
     generateFruitType (4/5) = specSelectCategory (4/5) ∧
     (generateFruitType (4/5)).isSome = true ∧
     (FRUIT_TABLE.map Prod.snd).sum = 1) :=
  ⟨⟨by decide, by norm_num, by norm_num⟩,
    C3_respawn_and_category [(20, 15), (3, 4)] snakeCE.body [(9, 9)] (3, 4)
      (4/5) (by decide) (by norm_num) (by norm_num)⟩

/-! ## Claim C9 -/

theorem updateFruitEffects_state (e : Engine) :
    (updateFruitEffects e).state = e.state := by
  unfold updateFruitEffects
  split_ifs <;> rfl

theorem updateFruitEffects_timer_dec (e : Engine) (h : 0 < e.invincible_timer) :
    (updateFruitEffects e).invincible_timer = e.invincible_timer - 1 := by
  unfold updateFruitEffects
  rw [if_pos h]

theorem updateFruitEffects_timer_stay (e : Engine) (h : e.invincible_timer ≤ 0) :
    (updateFruitEffects e).invincible_timer = e.invincible_timer := by
  unfold updateFruitEffects
  rw [if_neg (by omega)]

theorem consumeFood_state (e : Engine) (mm : ℚ) :
    (consumeFood e mm).state = e.state := by
  unfold consumeFood
  rw [applyFruitEffect_state]

theorem consumeFood_timer_pos (e : Engine) (mm : ℚ) (h : 0 < e.invincible_timer) :
    0 < (consumeFood e mm).invincible_timer := by
  unfold consumeFood
  rw [applyFruitEffect_timer]
  split_ifs
  · norm_num
  · exact h

theorem collisionResolve_state_pos (e : Engine) (zen : Bool)
    (h : 0 < e.invincible_timer) :
    (collisionResolve e zen).state = e.state := by
  unfold collisionResolve
  by_cases hz : zen = true
  · rw [if_pos hz]
    dsimp only
    rw [if_neg]
    intro hc
    exact absurd hc.2 (by omega)
  · rw [if_neg hz, if_neg]
    intro hc
    exact absurd hc.2 (by omega)

/-- Claim C9 counterexample: at `engineWall` the countdown is 1 (positive)
at the start of the tick, yet the same tick decrements it to 0 before the
collision check, so the wall collision does end the game. -/
theorem C9_counterexample :
    0 < engineWall.invincible_timer ∧
    engineWall.state = GameState.running ∧
    (engineTick engineWall 1 false).state = GameState.game_over := by
  refine ⟨by decide, rfl, by decide⟩

/-- Claim C9, amended: the countdown decreases by exactly 1 per tick while
positive and stays put at 0, and collision is suppressed (in every mode,
Zen included) whenever the value the collision check consults — the
countdown after the tick's decrement — is still positive, i.e. whenever the
tick began with countdown ≥ 2; a tick beginning with countdown exactly 1
reaches the check at 0 and may end the game. -/
theorem C9_invincibility_suppresses_collision (e : Engine) (mm : ℚ)
    (zen : Bool) (hrun : e.state = GameState.running)
    (h2 : 2 ≤ e.invincible_timer) :
    (engineTick e mm zen).state = GameState.running ∧
    (∀ e' : Engine, 0 < e'.invincible_timer →
        (updateFruitEffects e').invincible_timer = e'.invincible_timer - 1) ∧
    (∀ e' : Engine, e'.invincible_timer ≤ 0 →
        (updateFruitEffects e').invincible_timer = e'.invincible_timer) := by
  refine ⟨?_, fun e' h => updateFruitEffects_timer_dec e' h,
    fun e' h => updateFruitEffects_timer_stay e' h⟩
  unfold engineTick
  rw [if_pos hrun]
  dsimp only
  have he1 : ({ e with snake := e.snake.update } : Engine).invincible_timer
      = e.invincible_timer := rfl
  have ht2 : 0 < (updateFruitEffects { e with snake := e.snake.update }).invincible_timer := by
    rw [updateFruitEffects_timer_dec _ (by omega)]
    omega
  have hs2 : (updateFruitEffects { e with snake := e.snake.update }).state
      = GameState.running := by
    rw [updateFruitEffects_state]
    exact hrun
  by_cases hfood : (updateFruitEffects { e with snake := e.snake.update }).snake.body.headD (0, 0)
      = (updateFruitEffects { e with snake := e.snake.update }).food_position
  · rw [if_pos hfood, collisionResolve_state_pos _ _ (consumeFood_timer_pos _ _ ht2),
      consumeFood_state]
    exact hs2
  · rw [if_neg hfood, collisionResolve_state_pos _ _ ht2]
    exact hs2

/-- Witness for C9: the amended theorem at `engineWall` with two ticks of
invincibility instead of one — the same wall collision is suppressed. -/
theorem C9_witness :
    ({ engineWall with invincible_timer := 2 }.state = GameState.running ∧
     2 ≤ ({ engineWall with invincible_timer := 2 } : Engine).invincible_timer) ∧
    ((engineTick { engineWall with invincible_timer := 2 } 1 false).state
        = GameState.running ∧
     (∀ e' : Engine, 0 < e'.invincible_timer →
         (updateFruitEffects e').invincible_timer = e'.invincible_timer - 1) ∧
     (∀ e' : Engine, e'.invincible_timer ≤ 0 →
         (updateFruitEffects e').invincible_timer = e'.invincible_timer)) :=
  ⟨⟨rfl, by decide⟩,
    C9_invincibility_suppresses_collision { engineWall with invincible_timer := 2 }
      1 false rfl (by decide)⟩

end SnakeGame
